import Mathlib

/-!
Verification of the decentralized task-claiming / decomposition core of the
`orchestration` repository.  The Python sources are shallowly embedded:
task records become a Lean structure mirroring the JSON dictionaries, the
directory-backed task store becomes a list of records keyed by `task_id`,
and each agent's read-check-write body becomes a pure store transformer.
Timestamps (`datetime.now()` / `time.time()`) are abstracted as `Nat`
parameters; free-form result payloads that no modeled code path reads back
(e.g. the `terminal_result` map) are reduced to the fields the logic uses.
-/

/-- Task lifecycle states, from spec section 4.3 and the string literals
written by the agents. -/
inductive Status where
  | not_started
  | available
  | claimed
  | in_progress
  | blocked
  | completed
  | failed
  | cancelled
  | stuck
deriving DecidableEq, Repr

/-- The `metadata` map of a task record.  Fields are the union of the keys
written by `_create_subtask`, `_create_execution_subtask` and
`_create_alternative_subtask`; absent keys are `false`/`none`, mirroring
`dict.get` defaults.  `alternative_strategy` is included so that the lookup
`metadata.get("alternative_strategy")` is expressible: no code path writes
this key, so it defaults to `none`. -/
structure Metadata where
  created_by_breakdown : Bool := false
  step_type : Option String := none
  breakdown_agent : Option String := none
  created_by_planning : Bool := false
  planning_agent : Option String := none
  detailed_expansion : Bool := false
  alternative_approach : Bool := false
  resolution_agent : Option String := none
  alternative_strategy : Option String := none
deriving DecidableEq, Repr

/-- A task record (`task.json`).  Fields are the union of the keys written
by the creation sites (`task_repo_manager.create_task`, interface-agent
`create_task`, `_create_subtask`, `_create_execution_subtask`,
`_create_alternative_subtask`) and the mutation sites (`_claim_task`,
`_mark_task_completed`, `_mark_task_failed`, `_mark_planning_task_completed`,
file-operations `process_task`).  Optional fields default to the value
`dict.get` would produce for an absent key. -/
structure TaskRecord where
  task_id : String
  title : String := ""
  description : String := ""
  created_by : String := ""
  agent_type : String := ""
  needs_planning : Bool := false
  status : Status
  priority : Option Nat := none
  progress : Nat := 0
  created_at : Option Nat := none
  updated_at : Option Nat := none
  estimated_minutes : Nat := 0
  dependencies : List String := []
  blockers : List String := []
  next_actions : List String := []
  assigned_agents : List String := []
  claimed_by : Option String := none
  claimed_at : Option Nat := none
  completed_by : Option String := none
  completed_at : Option Nat := none
  failed_by : Option String := none
  failed_at : Option Nat := none
  failure_reason : Option String := none
  retry_count : Nat := 0
  specific_commands : List String := []
  expected_output : String := ""
  alternative_strategy : Option String := none
  changes_from_original : List String := []
  planning_result_steps : Option Nat := none
  terminal_result_success : Option Bool := none
  metadata : Metadata := {}
deriving DecidableEq, Repr

/-! String helpers mirroring the Python operations used by the classifier:
`str.lower()` (the inputs are ASCII) and the substring test `pat in s`. -/

/-- ASCII lowercasing of one character, as `str.lower()` acts on the ASCII
descriptions and keyword tables of the source. -/
def charLower (c : Char) : Char :=
  if 65 ≤ c.toNat ∧ c.toNat ≤ 90 then Char.ofNat (c.toNat + 32) else c

/-- `s.lower()` on ASCII strings. -/
def strLower (s : String) : String := ⟨s.data.map charLower⟩

/-- Substring occurrence on character lists: `pat` occurs somewhere in `s`. -/
def listInfixOf (pat : List Char) : List Char → Bool
  | [] => pat.isEmpty
  | c :: rest => pat.isPrefixOf (c :: rest) || listInfixOf pat rest

/-- Python's `pat in s` substring test. -/
def containsSub (s pat : String) : Bool := listInfixOf pat.data s.data

example : containsSub "analyze codebase" "analyze" = true := by decide
example : containsSub "abc" "bd" = false := by decide
example : strLower "Stack Overflow" = "stack overflow" := by decide

/-! Task-breakdown agent (`task_breakdown_agent/agent.py`). -/

/-- Result of `_analyze_task_complexity`. -/
structure Analysis where
  strategy : String
  complexity : String
  estimated_minutes : Nat
  requires_planning : Bool
deriving DecidableEq, Repr

/-- `_analyze_task_complexity`: keyword-table strategy selection over the
lowercased description. -/
def analyze_task_complexity (task_description : String) : Analysis :=
  let task_lower := strLower task_description
  let res :=
    if ["analyze", "compare", "research"].any (fun k => containsSub task_lower k) then
      ("analysis_workflow", 15, "high")
    else if ["search", "find", "gather"].any (fun k => containsSub task_lower k) then
      ("information_gathering", 8, "medium")
    else if ["create", "write", "generate"].any (fun k => containsSub task_lower k) then
      ("creation_workflow", 10, "medium")
    else
      ("general_workflow", 12, "medium")
  { strategy := res.1
    complexity := res.2.2
    estimated_minutes := res.2.1
    requires_planning :=
      containsSub task_lower "plan" || containsSub task_lower "strategy"
        || res.2.2 == "high" }

/-- One step descriptor of a decomposition plan (the dictionaries built by
`_create_sequential_steps` / `_create_detailed_execution_plan`).
`estimated_minutes` is optional because `_create_subtask` and
`_create_execution_subtask` read it with different `dict.get` defaults.
Keys no modeled consumer reads (`decision_criteria`, `focus`, `options`,
`depends_on_planning`) are omitted. -/
structure StepDef where
  description : String
  agent_type : String
  needs_planning : Bool := false
  estimated_minutes : Option Nat := none
  specific_commands : List String := []
  expected_output : String := ""
deriving DecidableEq, Repr

/-- `_create_sequential_steps`: fixed ordered step template per strategy. -/
def create_sequential_steps (task_description : String) (analysis : Analysis) :
    List StepDef :=
  if analysis.strategy == "analysis_workflow" then
    [ { description := "Plan analysis strategy for: " ++ task_description
        agent_type := "planning", needs_planning := true, estimated_minutes := some 3 }
    , { description := "Execute analysis based on plan"
        agent_type := "terminal", estimated_minutes := some 8 }
    , { description := "Research solutions and fixes for found issues"
        agent_type := "search", estimated_minutes := some 6 }
    , { description := "Apply selected solutions"
        agent_type := "file_operations", estimated_minutes := some 4 } ]
  else if analysis.strategy == "information_gathering" then
    [ { description := "Search and gather information: " ++ task_description
        agent_type := "search", estimated_minutes := some 5 }
    , { description := "Organize and save gathered information"
        agent_type := "file_operations", estimated_minutes := some 3 } ]
  else if analysis.strategy == "creation_workflow" then
    [ { description := "Plan creation approach for: " ++ task_description
        agent_type := "planning", needs_planning := true, estimated_minutes := some 4 }
    , { description := "Create content based on plan"
        agent_type := "file_operations", estimated_minutes := some 6 } ]
  else
    [ { description := "Plan approach for: " ++ task_description
        agent_type := "planning", needs_planning := true, estimated_minutes := some 4 }
    , { description := "Execute planned approach"
        agent_type := "terminal", estimated_minutes := some 8 } ]

/-- Python `f"{n:02d}"` for the step numbering. -/
def twoDigit (n : Nat) : String := if n < 10 then "0" ++ toString n else toString n

/-- `_create_subtask`: child record built from a step descriptor.  Note the
`dependencies` value written for non-first steps is the literal string
`"previous_step"`. -/
def create_subtask (agent_name : String) (now : Nat) (subtask_id : String)
    (step : StepDef) (is_first_step : Bool) : TaskRecord :=
  { task_id := subtask_id
    title := step.description
    description := step.description
    created_by := agent_name
    agent_type := step.agent_type
    needs_planning := step.needs_planning
    status := if is_first_step then .available else .blocked
    progress := 0
    created_at := some now
    updated_at := some now
    estimated_minutes := step.estimated_minutes.getD 5
    dependencies := if is_first_step then [] else ["previous_step"]
    blockers := []
    next_actions := []
    metadata := { created_by_breakdown := true
                  step_type := some step.agent_type
                  breakdown_agent := some agent_name } }

/-- The subtask records created by `breakdown_complex_task` for a given
parent description and id: step `i` (0-based) gets id
`{task_id}-step-{i+1:02d}` and `is_first_step = (i == 0)`. -/
def breakdown_subtasks (agent_name : String) (now : Nat)
    (task_description task_id : String) : List TaskRecord :=
  let analysis := analyze_task_complexity task_description
  let steps := create_sequential_steps task_description analysis
  steps.enum.map fun p =>
    create_subtask agent_name now (task_id ++ "-step-" ++ twoDigit (p.1 + 1)) p.2 (p.1 == 0)

/-- `_is_complex_task`: keyword indicators over the lowercased description. -/
def is_complex_task (task : TaskRecord) : Bool :=
  let description := strLower task.description
  [" and ", "compare", "analyze", "research and", "find and",
   "create comprehensive", "full analysis", "step by step"].any
    (fun ind => containsSub description ind)

/-- `_is_task_claimed` (identical in the breakdown, terminal and
metacognition agents). -/
def is_task_claimed (task : TaskRecord) : Bool :=
  task.status == .claimed || task.status == .in_progress || task.status == .completed

/-- The description of end-to-end scenario A. -/
def scenarioDescription : String :=
  "analyze codebase for syntax flaws and compare with fixes from Stack Overflow"

example :
    (breakdown_subtasks "task_breakdown_agent" 0 scenarioDescription "p").map
      (fun r => r.agent_type)
      = ["planning", "terminal", "search", "file_operations"] := by decide
example :
    (breakdown_subtasks "task_breakdown_agent" 0 scenarioDescription "p").map
      (fun r => r.task_id)
      = ["p-step-01", "p-step-02", "p-step-03", "p-step-04"] := by decide

/-! The task store.  The directory `current_tasks/` maps each `task_id`
(directory name) to one `task.json`; we model the set of parseable records
as a list in directory-enumeration order.  Writing `task.json` for an id
(after `mkdir(..., exist_ok=True)`) replaces the record if the id exists
and creates it otherwise. -/

abbrev Store : Type := List TaskRecord

/-- Reading `current_tasks/{id}/task.json`. -/
def lookupTask (s : Store) (id : String) : Option TaskRecord :=
  List.find? (fun t => t.task_id == id) s

/-- Writing `current_tasks/{r.task_id}/task.json`. -/
def writeTask (s : Store) (r : TaskRecord) : Store :=
  if List.any s (fun t => t.task_id == r.task_id) then
    List.map (fun t => if t.task_id == r.task_id then r else t) s
  else s ++ [r]

/-- `_claim_task` (breakdown, terminal and metacognition agents): the
in-memory record with `status=claimed`, `claimed_by`, `claimed_at` set,
which the agent then writes back wholesale. -/
def claim_task (agent_name : String) (now : Nat) (task : TaskRecord) : TaskRecord :=
  { task with status := .claimed, claimed_by := some agent_name, claimed_at := some now }

/-- Breakdown agent `_mark_task_completed`. -/
def mark_task_completed (agent_name : String) (now : Nat) (task : TaskRecord) : TaskRecord :=
  { task with status := .completed, completed_by := some agent_name,
              completed_at := some now }

/-- `_find_complex_tasks` filter. -/
def find_complex_tasks (s : Store) : List TaskRecord :=
  List.filter (fun task =>
    is_complex_task task
      && !task.metadata.created_by_breakdown
      && (task.status == .available || task.status == .not_started)
      && !is_task_claimed task) s

/-- One pass of the breakdown agent's `monitor_workspace` body over a single
found complex task: claim it, save every subtask, then mark the (claimed
in-memory) parent record completed. -/
def breakdown_body (agent_name : String) (now : Nat) (s : Store) (task : TaskRecord) :
    Store :=
  let claimed := claim_task agent_name now task
  let s1 := writeTask s claimed
  let subs := breakdown_subtasks agent_name now task.description task.task_id
  let s2 := subs.foldl writeTask s1
  writeTask s2 (mark_task_completed agent_name now claimed)

/-! Terminal agent (`terminal_agent/agent.py`). -/

/-- `_is_terminal_task`. -/
def is_terminal_task (task : TaskRecord) : Bool :=
  task.agent_type == "terminal"
    || (let description := strLower task.description
        ["run command", "execute", "find ", "grep ", "ls ", "cat ",
         "git ", "npm ", "pip ", "curl ", "wget ", "bash ", "shell",
         "command", "terminal", "script", "awk ", "sed ", "sort "].any
          (fun ind => containsSub description ind))

/-- `_find_terminal_tasks` filter. -/
def find_terminal_tasks (s : Store) : List TaskRecord :=
  List.filter (fun task =>
    is_terminal_task task
      && (task.status == .available || task.status == .not_started)
      && !is_task_claimed task) s

/-- Terminal agent `_mark_task_completed` (the `terminal_result` payload is
reduced to its `success` flag, the only part any modeled logic depends on). -/
def mark_terminal_completed (agent_name : String) (now : Nat) (success : Bool)
    (task : TaskRecord) : TaskRecord :=
  { task with status := .completed, completed_by := some agent_name,
              completed_at := some now, terminal_result_success := some success }

/-- Terminal agent `_mark_task_failed`: records the failure and increments
`retry_count`. -/
def mark_terminal_failed (agent_name : String) (now : Nat) (err : String)
    (task : TaskRecord) : TaskRecord :=
  { task with status := .failed, failed_by := some agent_name,
              failed_at := some now, failure_reason := some err,
              retry_count := task.retry_count + 1 }

/-- One pass of the terminal agent's monitor body over a single found task:
claim, execute (outcome abstracted as the `success` flag of the external
collaborator), then mark completed or failed. -/
def terminal_body (agent_name : String) (now : Nat) (success : Bool) (err : String)
    (s : Store) (task : TaskRecord) : Store :=
  let claimed := claim_task agent_name now task
  let s1 := writeTask s claimed
  if success then writeTask s1 (mark_terminal_completed agent_name now true claimed)
  else writeTask s1 (mark_terminal_failed agent_name now err claimed)

/-! File-operations agent (`file_operations_agent/agent.py`). -/

/-- `can_handle_task`. -/
def can_handle_task (task : TaskRecord) : Bool :=
  strLower task.agent_type == "file"
    || (let description := strLower task.description
        ["file", "write", "read", "create", "delete", "directory", "folder",
         "save"].any (fun k => containsSub description k))

/-- The tasks the file-operations monitor will process: `status=available`
and handled by this agent (its scan skips everything else). -/
def file_ops_candidates (s : Store) : List TaskRecord :=
  List.filter (fun task => task.status == .available && can_handle_task task) s

/-- File-operations `process_task` claim write: unlike the other agents it
claims directly with `status=in_progress`. -/
def file_ops_claim (agent_id : String) (now : Nat) (task : TaskRecord) : TaskRecord :=
  { task with status := .in_progress, claimed_by := some agent_id,
              claimed_at := some now }

/-- File-operations `process_task` final write: `completed` or `failed`
according to the result's success flag; `completed_at` is set in both
cases. -/
def file_ops_finish (now : Nat) (success : Bool) (task : TaskRecord) : TaskRecord :=
  { task with status := if success then .completed else .failed,
              completed_at := some now }

/-- One pass of the file-operations monitor over a single candidate task. -/
def file_ops_body (agent_id : String) (now : Nat) (success : Bool)
    (s : Store) (task : TaskRecord) : Store :=
  let claimed := file_ops_claim agent_id now task
  let s1 := writeTask s claimed
  writeTask s1 (file_ops_finish now success claimed)

/-! Interface agent (`interface_agent/agent.py`), task creation tool. -/

/-- The id string built by interface `create_task`:
`f"task-{int(time.time())}-{description[:20].replace(' ', '-').lower()}"`. -/
def interface_task_id (description : String) (now : Nat) : String :=
  "task-" ++ (toString now ++ ("-" ++
    ⟨(description.data.take 20).map fun c => if c == ' ' then '-' else charLower c⟩))

/-- The record written by interface `create_task`. -/
def interface_record (description agent_type : String) (priority : Nat) (now : Nat) :
    TaskRecord :=
  { task_id := interface_task_id description now
    description := description
    agent_type := agent_type
    status := .available
    priority := some priority
    created_at := some now
    created_by := "interface_agent"
    dependencies := [] }

/-! Metacognition agent (`metacognition_agent/agent.py`): planning-task
expansion and stuck-task resolution. -/

/-- Result of `_analyze_planning_requirements` (only the `strategy` key is
read by `_create_detailed_execution_plan`; the `requires` list,
`estimated_minutes` and `complexity` are carried for fidelity). -/
structure PlanningAnalysis where
  strategy : String
  requires : List String
  estimated_minutes : Nat
  complexity : String
deriving DecidableEq, Repr

/-- `_analyze_planning_requirements`. -/
def analyze_planning_requirements (task_description : String) : PlanningAnalysis :=
  let task_lower := strLower task_description
  if containsSub task_lower "codebase" && containsSub task_lower "analysis" then
    { strategy := "codebase_analysis"
      requires := ["file_discovery", "tool_selection", "pattern_definition"]
      estimated_minutes := 8, complexity := "high" }
  else if containsSub task_lower "plan" && containsSub task_lower "strategy" then
    { strategy := "strategic_planning"
      requires := ["objective_analysis", "approach_selection", "step_sequencing"]
      estimated_minutes := 5, complexity := "medium" }
  else if containsSub task_lower "research" then
    { strategy := "research_planning"
      requires := ["keyword_identification", "source_selection", "search_strategy"]
      estimated_minutes := 4, complexity := "medium" }
  else
    { strategy := "general_planning"
      requires := ["requirement_analysis", "approach_definition"]
      estimated_minutes := 6, complexity := "medium" }

/-- `_create_detailed_execution_plan`: detailed step template per planning
strategy (`strategic_planning` and `general_planning` both fall to the
general template, as in the source's `else` branch). -/
def create_detailed_execution_plan (analysis : PlanningAnalysis) : List StepDef :=
  if analysis.strategy == "codebase_analysis" then
    [ { description := "Identify file types and structure in codebase"
        agent_type := "terminal"
        specific_commands := ["find . -type f -name \x27*.py\x27 | head -20",
                              "find . -type f -name \x27*.js\x27 | head -20"]
        expected_output := "List of Python and JavaScript files"
        estimated_minutes := some 2 }
    , { description := "Select appropriate linting tools based on file types found"
        agent_type := "planning", needs_planning := true, estimated_minutes := some 2 }
    , { description := "Define specific syntax error patterns to search for"
        agent_type := "planning", needs_planning := true, estimated_minutes := some 2 }
    , { description := "Execute systematic syntax analysis using selected tools"
        agent_type := "terminal", estimated_minutes := some 4 } ]
  else if analysis.strategy == "research_planning" then
    [ { description := "Identify key search terms and keywords"
        agent_type := "planning", needs_planning := true, estimated_minutes := some 2 }
    , { description := "Select optimal information sources"
        agent_type := "planning", needs_planning := true, estimated_minutes := some 1 }
    , { description := "Execute targeted research with defined strategy"
        agent_type := "search", estimated_minutes := some 5 } ]
  else
    [ { description := "Analyze specific requirements and constraints"
        agent_type := "planning", needs_planning := true, estimated_minutes := some 3 }
    , { description := "Execute planned approach"
        agent_type := "terminal", estimated_minutes := some 5 } ]

/-- `_create_execution_subtask`: like `_create_subtask` but with the
planning-agent metadata and the `specific_commands`/`expected_output`
carried over; the `estimated_minutes` default is 3. -/
def create_execution_subtask (agent_name : String) (now : Nat) (subtask_id : String)
    (step : StepDef) (is_first_step : Bool) : TaskRecord :=
  { task_id := subtask_id
    title := step.description
    description := step.description
    created_by := agent_name
    agent_type := step.agent_type
    needs_planning := step.needs_planning
    status := if is_first_step then .available else .blocked
    progress := 0
    created_at := some now
    updated_at := some now
    estimated_minutes := step.estimated_minutes.getD 3
    dependencies := if is_first_step then [] else ["previous_step"]
    specific_commands := step.specific_commands
    expected_output := step.expected_output
    metadata := { created_by_planning := true
                  step_type := some step.agent_type
                  planning_agent := some agent_name
                  detailed_expansion := true } }

/-- The detail subtask records created by `expand_planning_task`: step `i`
(0-based) gets id `{task_id}-detail-{i+1:02d}`. -/
def planning_subtasks (agent_name : String) (now : Nat)
    (task_description task_id : String) : List TaskRecord :=
  let analysis := analyze_planning_requirements task_description
  let steps := create_detailed_execution_plan analysis
  steps.enum.map fun p =>
    create_execution_subtask agent_name now
      (task_id ++ "-detail-" ++ twoDigit (p.1 + 1)) p.2 (p.1 == 0)

/-- `_mark_planning_task_completed`: the re-read record with completion
fields and the `planning_result` annotation set. -/
def mark_planning_completed (agent_name : String) (now : Nat) (steps : Nat)
    (task : TaskRecord) : TaskRecord :=
  { task with status := .completed, completed_by := some agent_name,
              completed_at := some now, planning_result_steps := some steps }

/-- `_find_planning_tasks` filter. -/
def find_planning_tasks (s : Store) : List TaskRecord :=
  List.filter (fun task =>
    task.needs_planning
      && (task.status == .available || task.status == .not_started)
      && !is_task_claimed task) s

/-- One pass of the metacognition monitor body over a single found planning
task: claim, save the detail subtasks, then re-read the original's record
(if still present) and mark it completed. -/
def meta_planning_body (agent_name : String) (now : Nat) (s : Store)
    (task : TaskRecord) : Store :=
  let s1 := writeTask s (claim_task agent_name now task)
  let subs := planning_subtasks agent_name now task.description task.task_id
  let s2 := subs.foldl writeTask s1
  match lookupTask s2 task.task_id with
  | some cur => writeTask s2 (mark_planning_completed agent_name now subs.length cur)
  | none => s2

/-- Result of `_analyze_failure_pattern`. -/
structure FailureAnalysis where
  pattern : String
  attempts : Nat
  recommendation : String
  severity : String
deriving DecidableEq, Repr

/-- `_analyze_failure_pattern`.  `attempts` is the length of the in-memory
`task_attempts[task_id]` list after `resolve_stuck_task` appended the
current failure; `failure_context` is the `str(...)` form of the
failure-context map. -/
def analyze_failure_pattern (attempts : Nat) (failure_context : String) :
    FailureAnalysis :=
  let res :=
    if 3 ≤ attempts then ("chronic_failure", "fundamental_approach_change")
    else if containsSub (strLower failure_context) "timeout" then
      ("timeout_issues", "simplify_or_parallelize")
    else if containsSub (strLower failure_context) "not_found" then
      ("resource_unavailable", "alternative_sources")
    else ("execution_error", "different_tool_or_method")
  { pattern := res.1
    attempts := attempts
    recommendation := res.2
    severity := if 3 ≤ attempts then "high" else "medium" }

/-- Alternative-approach template (`strategy`, `description`, `changes`). -/
structure AltApproach where
  strategy : String
  description : String
  changes : List String
deriving DecidableEq, Repr

/-- `_create_alternative_approach`: fixed template per recommendation. -/
def create_alternative_approach (failure_analysis : FailureAnalysis) : AltApproach :=
  if failure_analysis.recommendation == "fundamental_approach_change" then
    { strategy := "completely_different_method"
      description := "Use entirely different tool or approach"
      changes := ["different_tool", "different_methodology", "simplified_scope"] }
  else if failure_analysis.recommendation == "simplify_or_parallelize" then
    { strategy := "simplification"
      description := "Break into smaller parts or use simpler approach"
      changes := ["smaller_chunks", "simpler_commands", "sequential_instead_of_parallel"] }
  else if failure_analysis.recommendation == "alternative_sources" then
    { strategy := "different_sources"
      description := "Use different data sources or locations"
      changes := ["alternative_locations", "different_search_terms", "backup_sources"] }
  else
    { strategy := "tool_substitution"
      description := "Use different tools with same objective"
      changes := ["alternative_tools", "different_parameters", "modified_approach"] }

/-- `_create_alternative_subtask`: the new sibling task.  Its dictionary has
no `dependencies` key (so readers see the empty default), carries
`alternative_strategy` as a top-level key, and its `metadata` map does not
contain an `alternative_strategy` key. -/
def create_alternative_subtask (agent_name : String) (now : Nat) (alt_task_id : String)
    (alternative : AltApproach) : TaskRecord :=
  { task_id := alt_task_id
    title := "Alternative approach: " ++ alternative.description
    description := alternative.description
    created_by := agent_name
    agent_type := "general"
    status := .available
    progress := 0
    created_at := some now
    updated_at := some now
    alternative_strategy := some alternative.strategy
    changes_from_original := alternative.changes
    metadata := { alternative_approach := true
                  created_by_planning := true
                  resolution_agent := some agent_name } }

/-- `resolve_stuck_task` for a task with `attempts_before` previously
recorded in-memory attempts: append the new attempt, analyze the failure
pattern, build the alternative approach, and save the single new subtask
`{task_id}-alt-{attempts}`.  Returns the analysis, the new record and the
updated store.  The original task's record is never touched. -/
def resolve_stuck_task (agent_name : String) (now : Nat) (attempts_before : Nat)
    (task_id failure_context : String) (s : Store) :
    FailureAnalysis × TaskRecord × Store :=
  let attempts := attempts_before + 1
  let failure_analysis := analyze_failure_pattern attempts failure_context
  let alternative := create_alternative_approach failure_analysis
  let alt_task_id := task_id ++ "-alt-" ++ toString attempts
  let alt_subtask := create_alternative_subtask agent_name now alt_task_id alternative
  (failure_analysis, alt_subtask, writeTask s alt_subtask)

/-- `_find_stuck_tasks` filter. -/
def find_stuck_tasks (s : Store) : List TaskRecord :=
  List.filter (fun task =>
    (task.status == .failed && 2 ≤ task.retry_count) || task.status == .stuck) s

/-! Task-store filesystem model with progress logs and malformed records,
for the store-level claims about `task_repo_manager.py`.  A `TaskDir` is
one task directory holding `task.json` (`record = none` when the file is
malformed, so that `json.load` raises) and `progress.log` as a list of
lines. -/

structure TaskDir where
  dir_id : String
  record : Option TaskRecord
  log : List String
deriving DecidableEq, Repr

abbrev TaskFS : Type := List TaskDir

/-- Reading directory `id`. -/
def lookupDir (fs : TaskFS) (id : String) : Option TaskDir :=
  List.find? (fun d => d.dir_id == id) fs

/-- `mkdir(parents=True, exist_ok=True)` followed by opening both files with
mode `w`: the directory entry is created if absent and its two files are
rewritten from scratch if present. -/
def writeDir (fs : TaskFS) (d : TaskDir) : TaskFS :=
  if List.any fs (fun e => e.dir_id == d.dir_id) then
    List.map (fun e => if e.dir_id == d.dir_id then d else e) fs
  else fs ++ [d]

/-- The metadata dictionary written by `TaskRepoManager.create_task`. -/
def repo_record (task_id title description : String) (assigned_agents : List String)
    (now : Nat) : TaskRecord :=
  { task_id := task_id
    title := title
    description := description
    created_by := "orchestration_system"
    assigned_agents := assigned_agents
    status := .not_started
    progress := 0
    created_at := some now
    updated_at := some now
    dependencies := []
    blockers := []
    next_actions := [] }

/-- The initial `progress.log` contents written by `create_task`. -/
def repo_initial_log (title : String) (assigned_agents : List String) (now : Nat) :
    List String :=
  [ "=== Task Created: " ++ toString now ++ " ==="
  , "Task: " ++ title
  , "Assigned to: " ++ String.intercalate ", " assigned_agents
  , "Status: Created" ]

/-- `TaskRepoManager.create_task` (assuming `ensure_repo_ready` succeeded,
i.e. the workspace repository exists): makes the task directory with
`exist_ok=True`, writes `task.json` and the initial `progress.log`, and
returns `True`.  The git commit is an audit side effect outside the store. -/
def create_task (fs : TaskFS) (task_id title description : String)
    (assigned_agents : List String) (now : Nat) : Bool × TaskFS :=
  let d : TaskDir :=
    { dir_id := task_id
      record := some (repo_record task_id title description assigned_agents now)
      log := repo_initial_log title assigned_agents now }
  (true, writeDir fs d)

/-- `TaskRepoManager.list_tasks`: iterates the task directories and parses
each `task.json`; there is no exception handling, so a malformed record
raises out of the whole call (modeled as `Except.error`). -/
def list_tasks (status_filter : Option Status) : TaskFS → Except String (List TaskRecord)
  | [] => .ok []
  | d :: rest =>
    match d.record with
    | none => .error "ParseError"
    | some task_data =>
      match list_tasks status_filter rest with
      | .error e => .error e
      | .ok tasks =>
        .ok (if status_filter.all (fun st => task_data.status == st)
             then task_data :: tasks else tasks)

/-- An agent scan in the `_find_*_tasks` style: the whole directory loop sits
inside one `try`, so a malformed `task.json` aborts the loop and the agent
keeps only the candidates appended before the malformed entry. -/
def agent_scan (pred : TaskRecord → Bool) : TaskFS → List TaskRecord
  | [] => []
  | d :: rest =>
    match d.record with
    | none => []
    | some task => (if pred task then [task] else []) ++ agent_scan pred rest

/-- The filter predicate of `_find_terminal_tasks`, for use with
`agent_scan`. -/
def terminal_task_pred (task : TaskRecord) : Bool :=
  is_terminal_task task
    && (task.status == .available || task.status == .not_started)
    && !is_task_claimed task

/-! The autonomous transition system.  One `AgentStep` is one store
mutation sequence performed by an agent's poll-loop body: the interface
agent creating a task, the breakdown agent decomposing one found complex
task, the terminal or file-operations agent claiming and executing one
found candidate, or the metacognition agent expanding one planning task or
resolving one stuck task.  Externally parameterized controller mutations
(interface `edit_task_file`/`delete_task_file`, the CLI
`update_task_progress`) are the spec's "externally forced" writes and are
outside this relation.  Each read-check-write body is modeled as one atomic
step on the current store. -/

inductive AgentStep : Store → Store → Prop
  | interface_create (s : Store) (description agent_type : String) (priority now : Nat) :
      AgentStep s (writeTask s (interface_record description agent_type priority now))
  | breakdown (s : Store) (agent_name : String) (now : Nat) (task : TaskRecord)
      (h : task ∈ find_complex_tasks s) :
      AgentStep s (breakdown_body agent_name now s task)
  | terminal (s : Store) (agent_name err : String) (now : Nat) (success : Bool)
      (task : TaskRecord) (h : task ∈ find_terminal_tasks s) :
      AgentStep s (terminal_body agent_name now success err s task)
  | file_ops (s : Store) (agent_id : String) (now : Nat) (success : Bool)
      (task : TaskRecord) (h : task ∈ file_ops_candidates s) :
      AgentStep s (file_ops_body agent_id now success s task)
  | planning (s : Store) (agent_name : String) (now : Nat) (task : TaskRecord)
      (h : task ∈ find_planning_tasks s) :
      AgentStep s (meta_planning_body agent_name now s task)
  | stuck (s : Store) (agent_name failure_context : String) (now attempts_before : Nat)
      (task : TaskRecord) (h : task ∈ find_stuck_tasks s) :
      AgentStep s
        (resolve_stuck_task agent_name now attempts_before task.task_id
          failure_context s).2.2

/-- Stores reachable from `s` by any interleaving of agent poll-loop
bodies. -/
inductive Reach : Store → Store → Prop
  | refl (s : Store) : Reach s s
  | step {s t u : Store} (h1 : Reach s t) (h2 : AgentStep t u) : Reach s u

/-! Helper lemmas about the store operations. -/

theorem mem_writeTask {s : Store} {r r' : TaskRecord} (h : r' ∈ writeTask s r) :
    r' = r ∨ r' ∈ s := by
  unfold writeTask at h
  split at h
  · rcases List.mem_map.mp h with ⟨t, ht, hrw⟩
    by_cases hid : t.task_id == r.task_id
    · simp [hid] at hrw; exact Or.inl hrw.symm
    · simp [hid] at hrw; exact Or.inr (hrw ▸ ht)
  · rcases List.mem_append.mp h with h1 | h1
    · exact Or.inr h1
    · exact Or.inl (List.mem_singleton.mp h1)

theorem mem_foldl_writeTask {l : List TaskRecord} :
    ∀ {s : Store} {r' : TaskRecord}, r' ∈ l.foldl writeTask s → r' ∈ s ∨ r' ∈ l := by
  induction l with
  | nil => intro s r' h; exact Or.inl h
  | cons x xs ih =>
    intro s r' h
    rcases ih h with h1 | h1
    · rcases mem_writeTask h1 with h2 | h2
      · exact Or.inr (h2 ▸ List.mem_cons_self x xs)
      · exact Or.inl h2
    · exact Or.inr (List.mem_cons_of_mem x h1)

theorem find?_map_write (r : TaskRecord) :
    ∀ s : List TaskRecord, (List.any s fun t => t.task_id == r.task_id) = true →
      List.find? (fun t => t.task_id == r.task_id)
        (List.map (fun t => if t.task_id == r.task_id then r else t) s) = some r := by
  intro s hany
  induction s with
  | nil => simp at hany
  | cons x xs ih =>
    by_cases hx : (x.task_id == r.task_id) = true
    · rw [List.map_cons, if_pos hx]
      simp only [List.find?_cons, beq_self_eq_true]
    · have hx' : (x.task_id == r.task_id) = false := by simpa using hx
      simp only [List.any_cons, hx', Bool.false_or] at hany
      rw [List.map_cons, if_neg hx]
      simp only [List.find?_cons, hx']
      exact ih hany

theorem find?_map_write_ne (r : TaskRecord) (id : String) (h : id ≠ r.task_id) :
    ∀ s : List TaskRecord,
      List.find? (fun t => t.task_id == id)
        (List.map (fun t => if t.task_id == r.task_id then r else t) s)
        = List.find? (fun t => t.task_id == id) s := by
  intro s
  have hrid : (r.task_id == id) = false := by
    rw [beq_eq_false_iff_ne]; exact fun hh => h hh.symm
  induction s with
  | nil => rfl
  | cons x xs ih =>
    by_cases hx : (x.task_id == r.task_id) = true
    · have hxr : x.task_id = r.task_id := by simpa using hx
      have hxid : (x.task_id == id) = false := by
        rw [beq_eq_false_iff_ne, hxr]; exact fun hh => h hh.symm
      rw [List.map_cons, if_pos hx]
      simp only [List.find?_cons, hrid, hxid]
      exact ih
    · rw [List.map_cons, if_neg hx]
      cases hxid : (x.task_id == id) with
      | true => simp only [List.find?_cons, hxid]
      | false =>
        simp only [List.find?_cons, hxid]
        exact ih

theorem lookupTask_writeTask_self (s : Store) (r : TaskRecord) :
    lookupTask (writeTask s r) r.task_id = some r := by
  unfold lookupTask writeTask
  split
  · rename_i hany
    exact find?_map_write r s hany
  · rename_i hany
    rw [List.find?_append]
    have h1 : List.find? (fun t => t.task_id == r.task_id) s = none := by
      rw [List.find?_eq_none]
      intro x hx hbeq
      exact hany (List.any_eq_true.mpr ⟨x, hx, hbeq⟩)
    rw [h1]
    simp only [List.find?_cons, beq_self_eq_true]
    rfl

theorem lookupTask_writeTask_ne (s : Store) (r : TaskRecord) (id : String)
    (h : id ≠ r.task_id) : lookupTask (writeTask s r) id = lookupTask s id := by
  unfold lookupTask writeTask
  split
  · exact find?_map_write_ne r id h s
  · rw [List.find?_append]
    have h2 : List.find? (fun t => t.task_id == id) [r] = none := by
      have hrid : (r.task_id == id) = false := by
        rw [beq_eq_false_iff_ne]; exact fun hh => h hh.symm
      simp only [List.find?_cons, hrid]
      rfl
    rw [h2]
    cases hfind : List.find? (fun t => t.task_id == id) s with
    | some v => rfl
    | none => rfl

theorem lookupTask_foldl_writeTask_ne {l : List TaskRecord} :
    ∀ {s : Store} {id : String}, (∀ r ∈ l, id ≠ r.task_id) →
      lookupTask (l.foldl writeTask s) id = lookupTask s id := by
  induction l with
  | nil => intro s id _; rfl
  | cons x xs ih =>
    intro s id h
    have hx := h x (List.mem_cons_self x xs)
    have hrest : ∀ r ∈ xs, id ≠ r.task_id :=
      fun r hr => h r (List.mem_cons_of_mem x hr)
    calc lookupTask (xs.foldl writeTask (writeTask s x)) id
        = lookupTask (writeTask s x) id := ih hrest
      _ = lookupTask s id := lookupTask_writeTask_ne s x id hx

theorem lookupTask_none_of_not_mem (s : Store) (id : String)
    (h : ∀ r ∈ s, r.task_id ≠ id) : lookupTask s id = none := by
  unfold lookupTask
  rw [List.find?_eq_none]
  intro x hx
  simpa using h x hx

theorem length_writeTask_of_fresh (s : Store) (r : TaskRecord)
    (h : lookupTask s r.task_id = none) : (writeTask s r).length = s.length + 1 := by
  unfold writeTask
  have hany : List.any s (fun t => t.task_id == r.task_id) = false := by
    unfold lookupTask at h
    rw [List.find?_eq_none] at h
    rw [List.any_eq_false]
    intro x hx
    exact h x hx
  rw [if_neg (by simp [hany])]
  simp

/-! Helper lemmas about string identifiers. -/

theorem self_ne_append (a b : String) (hb : b.data ≠ []) : a ≠ a ++ b := by
  intro h
  have hlen := congrArg String.length h
  rw [String.length_append] at hlen
  have hb0 : b.length = 0 := by omega
  have : b.data.length = 0 := hb0
  exact hb (List.length_eq_zero.mp this)

theorem append_ne_of_suffix_ne (t a b : String) (h : a ≠ b) : t ++ a ≠ t ++ b := by
  intro hcontra
  have hdata := congrArg String.data hcontra
  rw [String.data_append, String.data_append] at hdata
  exact h (String.ext (List.append_cancel_left hdata))

theorem ne_of_char_mem {c : Char} {x y : String} (hx : c ∈ x.data) (hy : c ∉ y.data) :
    x ≠ y := fun h => hy (h ▸ hx)

theorem char_mem_append_right (a b : String) {c : Char} (h : c ∈ b.data) :
    c ∈ (a ++ b).data := by
  rw [String.data_append]
  exact List.mem_append_right _ h

theorem char_mem_append_left (a b : String) {c : Char} (h : c ∈ a.data) :
    c ∈ (a ++ b).data := by
  rw [String.data_append]
  exact List.mem_append_left _ h

theorem ne_append_append (a b c : String) (hb : b.length ≠ 0) :
    a ≠ a ++ b ++ c := by
  intro h
  have hlen := congrArg String.length h
  rw [String.length_append, String.length_append] at hlen
  omega

/-! Indexing lemmas for the decomposition pipelines. -/

theorem breakdown_subtasks_get? (agent_name : String) (now : Nat)
    (task_description task_id : String) (i : Nat) :
    (breakdown_subtasks agent_name now task_description task_id).get? i
      = ((create_sequential_steps task_description
            (analyze_task_complexity task_description)).get? i).map
          (fun step => create_subtask agent_name now
            (task_id ++ "-step-" ++ twoDigit (i + 1)) step (i == 0)) := by
  unfold breakdown_subtasks
  rw [List.get?_map, List.get?_enum]
  cases (create_sequential_steps task_description
      (analyze_task_complexity task_description)).get? i <;> rfl

theorem planning_subtasks_get? (agent_name : String) (now : Nat)
    (task_description task_id : String) (i : Nat) :
    (planning_subtasks agent_name now task_description task_id).get? i
      = ((create_detailed_execution_plan
            (analyze_planning_requirements task_description)).get? i).map
          (fun step => create_execution_subtask agent_name now
            (task_id ++ "-detail-" ++ twoDigit (i + 1)) step (i == 0)) := by
  unfold planning_subtasks
  rw [List.get?_map, List.get?_enum]
  cases (create_detailed_execution_plan
      (analyze_planning_requirements task_description)).get? i <;> rfl

/-! Claim theorems. -/

/-- C1, counterexample: for end-to-end scenario A with parent id `p`, the
second step's `dependencies` is the literal `["previous_step"]`, not
`["p-step-01"]`, the task id of its predecessor — refuting the claim that
`Si` (i>1) is created with `dependencies = [S(i-1).task_id]`. -/
theorem C1_counterexample :
    (breakdown_subtasks "task_breakdown_agent" 0 scenarioDescription "p").map
        (fun r => r.task_id) = ["p-step-01", "p-step-02", "p-step-03", "p-step-04"] ∧
    (breakdown_subtasks "task_breakdown_agent" 0 scenarioDescription "p").map
        (fun r => r.dependencies)
      = [[], ["previous_step"], ["previous_step"], ["previous_step"]] ∧
    (["previous_step"] : List String) ≠ ["p-step-01"] := by decide

/-- C1 (amended): in every decomposition — by the breakdown agent or by the
metacognition agent's planning expansion — step `S1` is created `available`
with no dependencies, and every step `Si` with i > 1 is created `blocked`
with `dependencies = ["previous_step"]`, a fixed placeholder literal rather
than the predecessor's task id. -/
theorem C1_theorem (agent_name : String) (now : Nat)
    (task_description task_id : String) :
    (∀ i r, (breakdown_subtasks agent_name now task_description task_id).get? i
        = some r →
      r.status = (if i = 0 then Status.available else Status.blocked) ∧
      r.dependencies = (if i = 0 then ([] : List String) else ["previous_step"])) ∧
    (∀ i r, (planning_subtasks agent_name now task_description task_id).get? i
        = some r →
      r.status = (if i = 0 then Status.available else Status.blocked) ∧
      r.dependencies = (if i = 0 then ([] : List String) else ["previous_step"])) := by
  constructor
  · intro i r h
    rw [breakdown_subtasks_get?] at h
    cases hs : (create_sequential_steps task_description
        (analyze_task_complexity task_description)).get? i with
    | none => rw [hs] at h; simp at h
    | some step =>
      rw [hs] at h
      simp only [Option.map_some'] at h
      cases h
      cases i with
      | zero => exact ⟨rfl, rfl⟩
      | succ j =>
        constructor
        · simp [create_subtask]
        · simp [create_subtask]
  · intro i r h
    rw [planning_subtasks_get?] at h
    cases hs : (create_detailed_execution_plan
        (analyze_planning_requirements task_description)).get? i with
    | none => rw [hs] at h; simp at h
    | some step =>
      rw [hs] at h
      simp only [Option.map_some'] at h
      cases h
      cases i with
      | zero => exact ⟨rfl, rfl⟩
      | succ j =>
        constructor
        · simp [create_execution_subtask]
        · simp [create_execution_subtask]

/-- Witness record for C1: the second scenario-A subtask. -/
def c1WitnessRecord : TaskRecord :=
  create_subtask "task_breakdown_agent" 0 "p-step-02"
    { description := "Execute analysis based on plan"
      agent_type := "terminal", estimated_minutes := some 8 } false

/-- C1 witness: the amended claim evaluated on scenario A's second step. -/
theorem C1_witness :
    (breakdown_subtasks "task_breakdown_agent" 0 scenarioDescription "p").get? 1
      = some c1WitnessRecord ∧
    c1WitnessRecord.status = Status.blocked ∧
    c1WitnessRecord.dependencies = ["previous_step"] := by
  refine ⟨by decide, ?_, ?_⟩
  · have h := (( C1_theorem "task_breakdown_agent" 0 scenarioDescription "p").1
      1 c1WitnessRecord (by decide)).1
    simpa using h
  · have h := (( C1_theorem "task_breakdown_agent" 0 scenarioDescription "p").1
      1 c1WitnessRecord (by decide)).2
    simpa using h

/-- C4: scenario A.  The task `{description: "analyze codebase for syntax
flaws and compare with fixes from Stack Overflow", agent_type: "auto"}` is
detected as complex, decomposes into exactly 4 steps with agent types
`[planning, terminal, search, file_operations]`, with step 1 `available`
and steps 2..4 `blocked`. -/
theorem C4_theorem :
    is_complex_task
        { task_id := "t", description := scenarioDescription,
          agent_type := "auto", status := .available } = true ∧
    (breakdown_subtasks "task_breakdown_agent" 0 scenarioDescription "t").length = 4 ∧
    (breakdown_subtasks "task_breakdown_agent" 0 scenarioDescription "t").map
        (fun r => r.agent_type)
      = ["planning", "terminal", "search", "file_operations"] ∧
    (breakdown_subtasks "task_breakdown_agent" 0 scenarioDescription "t").map
        (fun r => r.status)
      = [Status.available, Status.blocked, Status.blocked, Status.blocked] := by decide

/-- C3: if two agents both read a task record while `status = available` and
then both perform the claim write in some order, the final persisted record
is exactly the later writer's well-formed claim record: a single record
whose one `claimed_by` field names the later writer. -/
theorem C3_theorem (s : Store) (r : TaskRecord) (a b : String) (ta tb : Nat)
    (hr : lookupTask s r.task_id = some r) (hav : r.status = .available) :
    lookupTask (writeTask (writeTask s (claim_task a ta r)) (claim_task b tb r))
        r.task_id = some (claim_task b tb r) ∧
    (claim_task b tb r).claimed_by = some b ∧
    (claim_task b tb r).claimed_at = some tb ∧
    (claim_task b tb r).status = .claimed :=
  ⟨lookupTask_writeTask_self _ (claim_task b tb r), rfl, rfl, rfl⟩

/-- Witness task for C3. -/
def c3Task : TaskRecord :=
  { task_id := "t1", description := "run command ls", agent_type := "terminal",
    status := .available }

/-- C3 witness: two concrete agents race on `c3Task`; agentB writes last. -/
theorem C3_witness :
    lookupTask [c3Task] c3Task.task_id = some c3Task ∧
    c3Task.status = .available ∧
    (lookupTask (writeTask (writeTask [c3Task] (claim_task "agentA" 1 c3Task))
        (claim_task "agentB" 2 c3Task)) c3Task.task_id
      = some (claim_task "agentB" 2 c3Task) ∧
    (claim_task "agentB" 2 c3Task).claimed_by = some "agentB" ∧
    (claim_task "agentB" 2 c3Task).claimed_at = some 2 ∧
    (claim_task "agentB" 2 c3Task).status = .claimed) :=
  ⟨by decide, by decide,
   C3_theorem [c3Task] c3Task "agentA" "agentB" 1 2 (by decide) (by decide)⟩

/-- Concrete failed task for C6: `status=failed`, `retry_count=2`, with a
failure context whose string form contains `"timeout"`. -/
def c6FailedTask : TaskRecord :=
  { task_id := "job-7", description := "run command make test",
    agent_type := "terminal", status := .failed, retry_count := 2,
    failure_reason := some "Command timeout after 30 seconds" }

/-- C6, counterexample: on the concrete stuck task the pattern and
recommendation are classified as the claim says, but the newly emitted
task's `metadata` map has no `alternative_strategy` key (the value
`"simplification"` is written as a top-level field instead), so
`metadata.alternative_strategy == "simplification"` fails. -/
theorem C6_counterexample :
    find_stuck_tasks [c6FailedTask] = [c6FailedTask] ∧
    (resolve_stuck_task "metacognition_agent" 0 0 "job-7"
        "Command timeout after 30 seconds" [c6FailedTask]).1.pattern
      = "timeout_issues" ∧
    (resolve_stuck_task "metacognition_agent" 0 0 "job-7"
        "Command timeout after 30 seconds" [c6FailedTask]).1.recommendation
      = "simplify_or_parallelize" ∧
    (resolve_stuck_task "metacognition_agent" 0 0 "job-7"
        "Command timeout after 30 seconds" [c6FailedTask]).2.1.metadata.alternative_strategy
      = none ∧
    (resolve_stuck_task "metacognition_agent" 0 0 "job-7"
        "Command timeout after 30 seconds" [c6FailedTask]).2.1.metadata.alternative_strategy
      ≠ some "simplification" ∧
    (resolve_stuck_task "metacognition_agent" 0 0 "job-7"
        "Command timeout after 30 seconds" [c6FailedTask]).2.1.alternative_strategy
      = some "simplification" := by decide

/-- C6 (amended): when the failure context's string form contains
`"timeout"` and fewer than three attempts are recorded for the task,
recovery classifies the pattern as `timeout_issues` with recommendation
`simplify_or_parallelize`, and the single newly emitted task carries the
top-level field `alternative_strategy = "simplification"`; its `metadata`
map contains no `alternative_strategy` key. -/
theorem C6_theorem (agent_name task_id failure_context : String)
    (now attempts_before : Nat) (s : Store)
    (hctx : containsSub (strLower failure_context) "timeout" = true)
    (hfew : attempts_before + 1 < 3) :
    (resolve_stuck_task agent_name now attempts_before task_id
        failure_context s).1.pattern = "timeout_issues" ∧
    (resolve_stuck_task agent_name now attempts_before task_id
        failure_context s).1.recommendation = "simplify_or_parallelize" ∧
    (resolve_stuck_task agent_name now attempts_before task_id
        failure_context s).2.1.alternative_strategy = some "simplification" ∧
    (resolve_stuck_task agent_name now attempts_before task_id
        failure_context s).2.1.metadata.alternative_strategy = none := by
  have h3 : ¬ 3 ≤ attempts_before + 1 := by omega
  refine ⟨?_, ?_, ?_, ?_⟩ <;>
    simp [resolve_stuck_task, analyze_failure_pattern,
      create_alternative_approach, create_alternative_subtask, h3, hctx]

/-- C6 witness: the amended claim evaluated on `c6FailedTask`'s data. -/
theorem C6_witness :
    containsSub (strLower "Command timeout after 30 seconds") "timeout" = true ∧
    0 + 1 < 3 ∧
    ((resolve_stuck_task "metacognition_agent" 0 0 "job-7"
        "Command timeout after 30 seconds" [c6FailedTask]).1.pattern
      = "timeout_issues" ∧
    (resolve_stuck_task "metacognition_agent" 0 0 "job-7"
        "Command timeout after 30 seconds" [c6FailedTask]).1.recommendation
      = "simplify_or_parallelize" ∧
    (resolve_stuck_task "metacognition_agent" 0 0 "job-7"
        "Command timeout after 30 seconds" [c6FailedTask]).2.1.alternative_strategy
      = some "simplification" ∧
    (resolve_stuck_task "metacognition_agent" 0 0 "job-7"
        "Command timeout after 30 seconds" [c6FailedTask]).2.1.metadata.alternative_strategy
      = none) :=
  ⟨by decide, by decide,
   C6_theorem "metacognition_agent" "job-7" "Command timeout after 30 seconds"
     0 0 [c6FailedTask] (by decide) (by decide)⟩

/-- C7: `resolve_stuck_task` on a failed task leaves the original record
(identified by its unchanged `task_id`) exactly as it was, adds exactly one
new task whose id is distinct from the original's, whose status is
`available`, and whose `dependencies` list is empty (in particular it does
not include the original task). -/
theorem C7_theorem (agent_name : String) (now attempts_before : Nat)
    (task_id failure_context : String) (s : Store) (orig : TaskRecord)
    (horig : lookupTask s task_id = some orig) (hfail : orig.status = .failed)
    (hfresh : lookupTask s
        (task_id ++ "-alt-" ++ toString (attempts_before + 1)) = none) :
    lookupTask (resolve_stuck_task agent_name now attempts_before task_id
        failure_context s).2.2 task_id = some orig ∧
    (resolve_stuck_task agent_name now attempts_before task_id
        failure_context s).2.1.task_id ≠ task_id ∧
    (resolve_stuck_task agent_name now attempts_before task_id
        failure_context s).2.1.status = .available ∧
    (resolve_stuck_task agent_name now attempts_before task_id
        failure_context s).2.1.dependencies = [] ∧
    (resolve_stuck_task agent_name now attempts_before task_id
        failure_context s).2.2.length = s.length + 1 ∧
    lookupTask (resolve_stuck_task agent_name now attempts_before task_id
        failure_context s).2.2
      (resolve_stuck_task agent_name now attempts_before task_id
        failure_context s).2.1.task_id
      = some (resolve_stuck_task agent_name now attempts_before task_id
        failure_context s).2.1 := by
  have hne : task_id ≠ task_id ++ "-alt-" ++ toString (attempts_before + 1) :=
    ne_append_append task_id "-alt-" (toString (attempts_before + 1)) (by decide)
  refine ⟨?_, fun hcontra => hne hcontra.symm, rfl, rfl, ?_, ?_⟩
  · rw [show (resolve_stuck_task agent_name now attempts_before task_id
        failure_context s).2.2
      = writeTask s (resolve_stuck_task agent_name now attempts_before task_id
          failure_context s).2.1 from rfl]
    rw [lookupTask_writeTask_ne _ _ _ hne]
    exact horig
  · exact length_writeTask_of_fresh s _ hfresh
  · exact lookupTask_writeTask_self s _

/-- C7 witness: the theorem evaluated on `c6FailedTask` in a singleton
store. -/
theorem C7_witness :
    lookupTask [c6FailedTask] "job-7" = some c6FailedTask ∧
    c6FailedTask.status = .failed ∧
    lookupTask [c6FailedTask] ("job-7" ++ "-alt-" ++ toString (0 + 1)) = none ∧
    (lookupTask (resolve_stuck_task "metacognition_agent" 3 0 "job-7"
        "Command timeout after 30 seconds" [c6FailedTask]).2.2 "job-7"
      = some c6FailedTask ∧
    (resolve_stuck_task "metacognition_agent" 3 0 "job-7"
        "Command timeout after 30 seconds" [c6FailedTask]).2.1.task_id ≠ "job-7" ∧
    (resolve_stuck_task "metacognition_agent" 3 0 "job-7"
        "Command timeout after 30 seconds" [c6FailedTask]).2.1.status = .available ∧
    (resolve_stuck_task "metacognition_agent" 3 0 "job-7"
        "Command timeout after 30 seconds" [c6FailedTask]).2.1.dependencies = [] ∧
    (resolve_stuck_task "metacognition_agent" 3 0 "job-7"
        "Command timeout after 30 seconds" [c6FailedTask]).2.2.length
      = [c6FailedTask].length + 1 ∧
    lookupTask (resolve_stuck_task "metacognition_agent" 3 0 "job-7"
        "Command timeout after 30 seconds" [c6FailedTask]).2.2
      (resolve_stuck_task "metacognition_agent" 3 0 "job-7"
        "Command timeout after 30 seconds" [c6FailedTask]).2.1.task_id
      = some (resolve_stuck_task "metacognition_agent" 3 0 "job-7"
        "Command timeout after 30 seconds" [c6FailedTask]).2.1) :=
  ⟨by decide, by decide, by decide,
   C7_theorem "metacognition_agent" 3 0 "job-7"
     "Command timeout after 30 seconds" [c6FailedTask] c6FailedTask
     (by decide) (by decide) (by decide)⟩

/-! Lookup lemmas for the filesystem model, mirroring the store ones. -/

theorem find?_map_writeDir (d : TaskDir) :
    ∀ fs : TaskFS, (List.any fs fun e => e.dir_id == d.dir_id) = true →
      List.find? (fun e => e.dir_id == d.dir_id)
        (List.map (fun e => if e.dir_id == d.dir_id then d else e) fs) = some d := by
  intro fs hany
  induction fs with
  | nil => simp at hany
  | cons x xs ih =>
    by_cases hx : (x.dir_id == d.dir_id) = true
    · rw [List.map_cons, if_pos hx]
      simp only [List.find?_cons, beq_self_eq_true]
    · have hx' : (x.dir_id == d.dir_id) = false := by simpa using hx
      simp only [List.any_cons, hx', Bool.false_or] at hany
      rw [List.map_cons, if_neg hx]
      simp only [List.find?_cons, hx']
      exact ih hany

theorem find?_map_writeDir_ne (d : TaskDir) (id : String) (h : id ≠ d.dir_id) :
    ∀ fs : TaskFS,
      List.find? (fun e => e.dir_id == id)
        (List.map (fun e => if e.dir_id == d.dir_id then d else e) fs)
        = List.find? (fun e => e.dir_id == id) fs := by
  intro fs
  have hdid : (d.dir_id == id) = false := by
    rw [beq_eq_false_iff_ne]; exact fun hh => h hh.symm
  induction fs with
  | nil => rfl
  | cons x xs ih =>
    by_cases hx : (x.dir_id == d.dir_id) = true
    · have hxd : x.dir_id = d.dir_id := by simpa using hx
      have hxid : (x.dir_id == id) = false := by
        rw [beq_eq_false_iff_ne, hxd]; exact fun hh => h hh.symm
      rw [List.map_cons, if_pos hx]
      simp only [List.find?_cons, hdid, hxid]
      exact ih
    · rw [List.map_cons, if_neg hx]
      cases hxid : (x.dir_id == id) with
      | true => simp only [List.find?_cons, hxid]
      | false =>
        simp only [List.find?_cons, hxid]
        exact ih

theorem lookupDir_writeDir_self (fs : TaskFS) (d : TaskDir) :
    lookupDir (writeDir fs d) d.dir_id = some d := by
  unfold lookupDir writeDir
  split
  · rename_i hany
    exact find?_map_writeDir d fs hany
  · rename_i hany
    rw [List.find?_append]
    have h1 : List.find? (fun e => e.dir_id == d.dir_id) fs = none := by
      rw [List.find?_eq_none]
      intro x hx hbeq
      exact hany (List.any_eq_true.mpr ⟨x, hx, hbeq⟩)
    rw [h1]
    simp only [List.find?_cons, beq_self_eq_true]
    rfl

theorem lookupDir_writeDir_ne (fs : TaskFS) (d : TaskDir) (id : String)
    (h : id ≠ d.dir_id) : lookupDir (writeDir fs d) id = lookupDir fs id := by
  unfold lookupDir writeDir
  split
  · exact find?_map_writeDir_ne d id h fs
  · rw [List.find?_append]
    have h2 : List.find? (fun e => e.dir_id == id) [d] = none := by
      have hdid : (d.dir_id == id) = false := by
        rw [beq_eq_false_iff_ne]; exact fun hh => h hh.symm
      simp only [List.find?_cons, hdid]
      rfl
    rw [h2]
    cases hfind : List.find? (fun e => e.dir_id == id) fs with
    | some v => rfl
    | none => rfl

/-- An existing task directory for id `t1`, for C8's counterexample. -/
def c8OldDir : TaskDir :=
  { dir_id := "t1"
    record := some { task_id := "t1", title := "old title", status := .in_progress }
    log := ["old log line"] }

/-- C8, counterexample: `create_task` on an id whose directory already
exists does not fail — `mkdir(exist_ok=True)` succeeds, the call returns
`True`, and the existing record and log are overwritten. -/
theorem C8_counterexample :
    (create_task [c8OldDir] "t1" "New title" "New description" ["agentA"] 9).1
      = true ∧
    lookupDir (create_task [c8OldDir] "t1" "New title" "New description"
        ["agentA"] 9).2 "t1"
      = some { dir_id := "t1"
               record := some (repo_record "t1" "New title" "New description"
                 ["agentA"] 9)
               log := repo_initial_log "New title" ["agentA"] 9 } ∧
    lookupDir (create_task [c8OldDir] "t1" "New title" "New description"
        ["agentA"] 9).2 "t1" ≠ some c8OldDir := by decide

/-- C8 (amended): `create_task` never fails with `AlreadyExists`: it returns
`True` unconditionally, (over)writes the task directory for the given id
with the fresh record and the initial progress-log entry, and leaves every
other task directory unchanged. -/
theorem C8_theorem (fs : TaskFS) (task_id title description : String)
    (agents : List String) (now : Nat) :
    (create_task fs task_id title description agents now).1 = true ∧
    lookupDir (create_task fs task_id title description agents now).2 task_id
      = some { dir_id := task_id
               record := some (repo_record task_id title description agents now)
               log := repo_initial_log title agents now } ∧
    (∀ id, id ≠ task_id →
      lookupDir (create_task fs task_id title description agents now).2 id
        = lookupDir fs id) := by
  refine ⟨rfl, ?_, ?_⟩
  · exact lookupDir_writeDir_self fs _
  · intro id hid
    exact lookupDir_writeDir_ne fs _ id hid

/-- C8 witness: the amended claim evaluated on the concrete one-directory
store, including the frame condition at the unrelated id `t9`. -/
theorem C8_witness :
    (create_task [c8OldDir] "t1" "New title" "New description" ["agentA"] 9).1
      = true ∧
    lookupDir (create_task [c8OldDir] "t1" "New title" "New description"
        ["agentA"] 9).2 "t1"
      = some { dir_id := "t1"
               record := some (repo_record "t1" "New title" "New description"
                 ["agentA"] 9)
               log := repo_initial_log "New title" ["agentA"] 9 } ∧
    ("t9" : String) ≠ "t1" ∧
    lookupDir (create_task [c8OldDir] "t1" "New title" "New description"
        ["agentA"] 9).2 "t9" = lookupDir [c8OldDir] "t9" :=
  ⟨(C8_theorem [c8OldDir] "t1" "New title" "New description" ["agentA"] 9).1,
   (C8_theorem [c8OldDir] "t1" "New title" "New description" ["agentA"] 9).2.1,
   by decide,
   (C8_theorem [c8OldDir] "t1" "New title" "New description" ["agentA"] 9).2.2
     "t9" (by decide)⟩

/-- Parseable terminal-type records and a malformed directory for C9. -/
def c9Good1 : TaskRecord :=
  { task_id := "g1", description := "run command ls", agent_type := "terminal",
    status := .available }

def c9Good2 : TaskRecord :=
  { task_id := "g2", agent_type := "terminal", status := .available }

def c9Dirs : TaskFS :=
  [ { dir_id := "g1", record := some c9Good1, log := [] }
  , { dir_id := "bad", record := none, log := [] }
  , { dir_id := "g2", record := some c9Good2, log := [] } ]

/-- C9, counterexample: with a malformed `task.json` between two parseable
candidate records, `list_tasks` raises instead of skipping, and the
terminal-style agent scan returns only the records collected before the
malformed one — the parseable `g2` after it is not yielded. -/
theorem C9_counterexample :
    list_tasks none c9Dirs = .error "ParseError" ∧
    agent_scan terminal_task_pred c9Dirs = [c9Good1] ∧
    terminal_task_pred c9Good2 = true ∧
    c9Good2 ∉ agent_scan terminal_task_pred c9Dirs :=
  ⟨by rfl, by decide, by decide, by decide⟩

/-- C9 (amended): a malformed task record is not skipped: `list_tasks`
propagates the parse error for the whole call, and an agent scan in the
`_find_*_tasks` style aborts at the malformed entry, yielding exactly the
candidates collected from the directories before it and none after it. -/
theorem C9_theorem (status_filter : Option Status) (pred : TaskRecord → Bool)
    (good bads : TaskFS) (bad : TaskDir)
    (hgood : ∀ d ∈ good, d.record.isSome) (hbad : bad.record = none) :
    list_tasks status_filter (good ++ bad :: bads) = .error "ParseError" ∧
    agent_scan pred (good ++ bad :: bads) = agent_scan pred good := by
  induction good with
  | nil =>
    rw [List.nil_append]
    constructor
    · unfold list_tasks
      rw [hbad]
    · unfold agent_scan
      rw [hbad]
  | cons d rest ih =>
    have hd := hgood d (List.mem_cons_self d rest)
    cases hr : d.record with
    | none => rw [hr] at hd; simp at hd
    | some task =>
      have ihr := ih (fun e he => hgood e (List.mem_cons_of_mem d he))
      rw [List.cons_append]
      constructor
      · unfold list_tasks
        rw [hr, ihr.1]
      · unfold agent_scan
        rw [hr, ihr.2]

/-! Identifier arithmetic: the generated subtask ids `{tid}-step-NN`,
`{tid}-detail-NN` and `{tid}-alt-N` are distinct from their parent id and
from each other. -/

theorem append_left_cancel_str {t a b : String} (h : t ++ a = t ++ b) : a = b := by
  have hdata := congrArg String.data h
  rw [String.data_append, String.data_append] at hdata
  exact String.ext (List.append_cancel_left hdata)

theorem toString_digit_inj {m n : Nat} (hm : m < 10) (hn : n < 10)
    (h : toString m = toString n) : m = n := by
  interval_cases m <;> interval_cases n <;> first | rfl | exact absurd h (by decide)

theorem twoDigit_inj {m n : Nat} (hm : m < 10) (hn : n < 10)
    (h : twoDigit m = twoDigit n) : m = n := by
  unfold twoDigit at h
  rw [if_pos hm, if_pos hn] at h
  exact toString_digit_inj hm hn (append_left_cancel_str h)

theorem sub_id_ne (tid mid : String) {i j : Nat} (hi : i + 1 < 10) (hj : j + 1 < 10)
    (hij : i ≠ j) : tid ++ mid ++ twoDigit (i + 1) ≠ tid ++ mid ++ twoDigit (j + 1) := by
  intro h
  have := twoDigit_inj hi hj (append_left_cancel_str h)
  omega

theorem pairwise_fst_lt_enumFrom {β : Type} (l : List β) :
    ∀ n, List.Pairwise (fun p q : Nat × β => p.1 < q.1) (l.enumFrom n) := by
  induction l with
  | nil => intro n; exact List.Pairwise.nil
  | cons x xs ih =>
    intro n
    refine List.Pairwise.cons ?_ (ih (n + 1))
    intro q hq
    rcases q with ⟨i, y⟩
    have := (List.mem_enumFrom hq).1
    omega

theorem pairwise_ids_enum_map {β : Type} (l : List β) (g : Nat × β → TaskRecord)
    (hg : ∀ p q : Nat × β, p.1 < l.length → q.1 < l.length → p.1 < q.1 →
      (g p).task_id ≠ (g q).task_id) :
    List.Pairwise (fun a b : TaskRecord => a.task_id ≠ b.task_id) (l.enum.map g) := by
  rw [List.pairwise_map]
  refine List.Pairwise.imp_of_mem ?_ (pairwise_fst_lt_enumFrom l 0)
  intro p q hp hq hlt
  rcases p with ⟨i, y⟩
  rcases q with ⟨j, z⟩
  have hib := (List.mem_enumFrom hp).2.1
  have hjb := (List.mem_enumFrom hq).2.1
  exact hg (i, y) (j, z) (by omega) (by omega) hlt

theorem create_sequential_steps_length_le (d : String) (A : Analysis) :
    (create_sequential_steps d A).length ≤ 4 := by
  unfold create_sequential_steps
  split
  · simp
  · split
    · simp
    · split
      · simp
      · simp

theorem create_detailed_execution_plan_length_le (A : PlanningAnalysis) :
    (create_detailed_execution_plan A).length ≤ 4 := by
  unfold create_detailed_execution_plan
  split
  · simp
  · split
    · simp
    · simp

theorem breakdown_subtasks_pairwise (a : String) (now : Nat) (d tid : String) :
    List.Pairwise (fun x y : TaskRecord => x.task_id ≠ y.task_id)
      (breakdown_subtasks a now d tid) := by
  unfold breakdown_subtasks
  refine pairwise_ids_enum_map _ _ ?_
  intro p q hp hq hlt
  have hlen := create_sequential_steps_length_le d (analyze_task_complexity d)
  show tid ++ "-step-" ++ twoDigit (p.1 + 1) ≠ tid ++ "-step-" ++ twoDigit (q.1 + 1)
  exact sub_id_ne tid "-step-" (by omega) (by omega) (by omega)

theorem planning_subtasks_pairwise (a : String) (now : Nat) (d tid : String) :
    List.Pairwise (fun x y : TaskRecord => x.task_id ≠ y.task_id)
      (planning_subtasks a now d tid) := by
  unfold planning_subtasks
  refine pairwise_ids_enum_map _ _ ?_
  intro p q hp hq hlt
  have hlen := create_detailed_execution_plan_length_le
    (analyze_planning_requirements d)
  show tid ++ "-detail-" ++ twoDigit (p.1 + 1) ≠ tid ++ "-detail-" ++ twoDigit (q.1 + 1)
  exact sub_id_ne tid "-detail-" (by omega) (by omega) (by omega)

theorem mem_breakdown_subtasks {a : String} {now : Nat} {d tid : String}
    {r : TaskRecord} (h : r ∈ breakdown_subtasks a now d tid) :
    ∃ i step, i < (create_sequential_steps d (analyze_task_complexity d)).length ∧
      r = create_subtask a now (tid ++ "-step-" ++ twoDigit (i + 1)) step (i == 0) := by
  unfold breakdown_subtasks at h
  rcases List.mem_map.mp h with ⟨p, hp, hr⟩
  rcases p with ⟨i, step⟩
  have hb : (i, step) ∈ List.enumFrom 0
      (create_sequential_steps d (analyze_task_complexity d)) := hp
  have := (List.mem_enumFrom hb).2.1
  exact ⟨i, step, by omega, hr.symm⟩

theorem mem_planning_subtasks {a : String} {now : Nat} {d tid : String}
    {r : TaskRecord} (h : r ∈ planning_subtasks a now d tid) :
    ∃ i step,
      i < (create_detailed_execution_plan (analyze_planning_requirements d)).length ∧
      r = create_execution_subtask a now (tid ++ "-detail-" ++ twoDigit (i + 1)) step
            (i == 0) := by
  unfold planning_subtasks at h
  rcases List.mem_map.mp h with ⟨p, hp, hr⟩
  rcases p with ⟨i, step⟩
  have hb : (i, step) ∈ List.enumFrom 0
      (create_detailed_execution_plan (analyze_planning_requirements d)) := hp
  have := (List.mem_enumFrom hb).2.1
  exact ⟨i, step, by omega, hr.symm⟩

theorem lookupTask_foldl_writeTask_mem :
    ∀ {l : List TaskRecord} {s : Store} {r : TaskRecord},
      List.Pairwise (fun x y : TaskRecord => x.task_id ≠ y.task_id) l → r ∈ l →
      lookupTask (l.foldl writeTask s) r.task_id = some r := by
  intro l
  induction l with
  | nil => intro s r _ h; cases h
  | cons x xs ih =>
    intro s r hpair h
    rcases List.pairwise_cons.mp hpair with ⟨hx, hxs⟩
    rcases List.mem_cons.mp h with rfl | h1
    · show lookupTask (xs.foldl writeTask (writeTask s r)) r.task_id = some r
      rw [lookupTask_foldl_writeTask_ne (fun y hy => hx y hy)]
      exact lookupTask_writeTask_self s r
    · exact ih hxs h1

/-! Dependency-gating invariant: every record with a non-empty
`dependencies` list is `blocked`.  All creation sites establish it and no
autonomous agent write breaks it, because the scans only hand out tasks
whose status is `available`/`not_started` — which by the invariant have no
dependencies — and no write ever modifies a `dependencies` list. -/

def DepInv (s : Store) : Prop :=
  ∀ r ∈ s, r.dependencies ≠ [] → r.status = .blocked

theorem depInv_writeTask {s : Store} {r : TaskRecord} (h : DepInv s)
    (hr : r.dependencies ≠ [] → r.status = .blocked) : DepInv (writeTask s r) := by
  intro r' h' hd
  rcases mem_writeTask h' with h1 | h1
  · subst h1; exact hr hd
  · exact h r' h1 hd

theorem depInv_foldl {l : List TaskRecord} {s : Store} (h : DepInv s)
    (hl : ∀ r ∈ l, r.dependencies ≠ [] → r.status = .blocked) :
    DepInv (l.foldl writeTask s) := by
  intro r' h' hd
  rcases mem_foldl_writeTask h' with h1 | h1
  · exact h r' h1 hd
  · exact hl r' h1 hd

theorem create_subtask_depInv (a : String) (now : Nat) (id : String) (step : StepDef)
    (first : Bool) :
    (create_subtask a now id step first).dependencies ≠ [] →
      (create_subtask a now id step first).status = .blocked := by
  cases first <;> simp [create_subtask]

theorem create_execution_subtask_depInv (a : String) (now : Nat) (id : String)
    (step : StepDef) (first : Bool) :
    (create_execution_subtask a now id step first).dependencies ≠ [] →
      (create_execution_subtask a now id step first).status = .blocked := by
  cases first <;> simp [create_execution_subtask]

/-! Decomposition of the scan filters. -/

theorem find_complex_status {s : Store} {task : TaskRecord}
    (h : task ∈ find_complex_tasks s) :
    task ∈ s ∧ (task.status = .available ∨ task.status = .not_started) := by
  rcases List.mem_filter.mp h with ⟨hm, hp⟩
  simp only [Bool.and_eq_true, Bool.or_eq_true, beq_iff_eq] at hp
  exact ⟨hm, hp.1.2⟩

theorem find_terminal_status {s : Store} {task : TaskRecord}
    (h : task ∈ find_terminal_tasks s) :
    task ∈ s ∧ (task.status = .available ∨ task.status = .not_started) := by
  rcases List.mem_filter.mp h with ⟨hm, hp⟩
  simp only [Bool.and_eq_true, Bool.or_eq_true, beq_iff_eq] at hp
  exact ⟨hm, hp.1.2⟩

theorem find_planning_status {s : Store} {task : TaskRecord}
    (h : task ∈ find_planning_tasks s) :
    task ∈ s ∧ (task.status = .available ∨ task.status = .not_started) := by
  rcases List.mem_filter.mp h with ⟨hm, hp⟩
  simp only [Bool.and_eq_true, Bool.or_eq_true, beq_iff_eq] at hp
  exact ⟨hm, hp.1.2⟩

theorem file_ops_status {s : Store} {task : TaskRecord}
    (h : task ∈ file_ops_candidates s) :
    task ∈ s ∧ task.status = .available := by
  rcases List.mem_filter.mp h with ⟨hm, hp⟩
  simp only [Bool.and_eq_true, beq_iff_eq] at hp
  exact ⟨hm, hp.1⟩

theorem deps_nil_of_nonblocked {s : Store} {task : TaskRecord} (hinv : DepInv s)
    (hm : task ∈ s) (hs : task.status ≠ .blocked) : task.dependencies = [] := by
  by_contra hd
  exact hs (hinv task hm hd)

theorem agentStep_depInv {s s' : Store} (hstep : AgentStep s s') (hinv : DepInv s) :
    DepInv s' := by
  cases hstep with
  | interface_create d at_ pr now =>
    exact depInv_writeTask hinv (by simp [interface_record])
  | breakdown a now task hfound =>
    obtain ⟨hm, hst⟩ := find_complex_status hfound
    have hdeps : task.dependencies = [] :=
      deps_nil_of_nonblocked hinv hm (by rcases hst with h | h <;> simp [h])
    refine depInv_writeTask (depInv_foldl (depInv_writeTask hinv ?_) ?_) ?_
    · intro hd; exact absurd hdeps hd
    · intro r hr
      rcases mem_breakdown_subtasks hr with ⟨i, step, hi, rfl⟩
      exact create_subtask_depInv a now _ step (i == 0)
    · intro hd; exact absurd hdeps hd
  | terminal a err now success task hfound =>
    obtain ⟨hm, hst⟩ := find_terminal_status hfound
    have hdeps : task.dependencies = [] :=
      deps_nil_of_nonblocked hinv hm (by rcases hst with h | h <;> simp [h])
    unfold terminal_body
    split
    · refine depInv_writeTask (depInv_writeTask hinv ?_) ?_ <;>
        (intro hd; exact absurd hdeps hd)
    · refine depInv_writeTask (depInv_writeTask hinv ?_) ?_ <;>
        (intro hd; exact absurd hdeps hd)
  | file_ops a now success task hfound =>
    obtain ⟨hm, hst⟩ := file_ops_status hfound
    have hdeps : task.dependencies = [] :=
      deps_nil_of_nonblocked hinv hm (by simp [hst])
    refine depInv_writeTask (depInv_writeTask hinv ?_) ?_ <;>
      (intro hd; exact absurd hdeps hd)
  | planning a now task hfound =>
    obtain ⟨hm, hst⟩ := find_planning_status hfound
    have hdeps : task.dependencies = [] :=
      deps_nil_of_nonblocked hinv hm (by rcases hst with h | h <;> simp [h])
    have hids : ∀ r ∈ planning_subtasks a now task.description task.task_id,
        task.task_id ≠ r.task_id := by
      intro r hr
      rcases mem_planning_subtasks hr with ⟨i, step, hi, rfl⟩
      show task.task_id ≠ task.task_id ++ "-detail-" ++ twoDigit (i + 1)
      exact ne_append_append _ _ _ (by decide)
    have hsub : DepInv ((planning_subtasks a now task.description
        task.task_id).foldl writeTask (writeTask s (claim_task a now task))) := by
      refine depInv_foldl (depInv_writeTask hinv ?_) ?_
      · intro hd; exact absurd hdeps hd
      · intro r hr
        rcases mem_planning_subtasks hr with ⟨i, step, hi, rfl⟩
        exact create_execution_subtask_depInv a now _ step (i == 0)
    have hlook : lookupTask ((planning_subtasks a now task.description
          task.task_id).foldl writeTask (writeTask s (claim_task a now task)))
        task.task_id = some (claim_task a now task) := by
      rw [lookupTask_foldl_writeTask_ne hids]
      exact lookupTask_writeTask_self s (claim_task a now task)
    unfold meta_planning_body
    dsimp only
    rw [hlook]
    refine depInv_writeTask hsub ?_
    intro hd
    exact absurd hdeps hd
  | stuck a fc now k task hfound =>
    exact depInv_writeTask hinv (by simp [create_alternative_subtask])

theorem reach_depInv {s0 s : Store} (h : Reach s0 s) (h0 : DepInv s0) : DepInv s := by
  induction h with
  | refl => exact h0
  | step h1 h2 ih => exact agentStep_depInv h2 ih

/-- The claim's side condition: every listed dependency of `t` resolves in
`s` to a record with `status = completed`. -/
def depsAllCompleted (s : Store) (t : TaskRecord) : Bool :=
  t.dependencies.all fun d =>
    match lookupTask s d with
    | some dep => dep.status == .completed
    | none => false

/-- C5: in every store reachable from the empty workspace by the autonomous
agent operations, a task with non-empty `dependencies` — in particular one
some of whose dependencies are not completed — is never `available`,
`claimed`, `in_progress`, or `completed`: it stays `blocked`. -/
theorem C5_theorem (s : Store) (h : Reach [] s) :
    ∀ r ∈ s, r.dependencies ≠ [] → depsAllCompleted s r = false →
      r.status ≠ .available ∧ r.status ≠ .claimed ∧
      r.status ≠ .in_progress ∧ r.status ≠ .completed := by
  have hinv : DepInv s := reach_depInv h (by intro r hr; cases hr)
  intro r hm hd _
  have hb := hinv r hm hd
  rw [hb]
  exact ⟨by decide, by decide, by decide, by decide⟩

/-- The parent task the C5 witness creates through the interface agent. -/
def c5Parent : TaskRecord := interface_record scenarioDescription "auto" 3 0

/-- The store of the C5 witness, reached in two agent steps: interface
creation of the complex task, then its breakdown. -/
def c5Store : Store := breakdown_body "task_breakdown_agent" 1 [c5Parent] c5Parent

/-- The blocked second step of the C5 witness decomposition. -/
def c5Blocked : TaskRecord :=
  create_subtask "task_breakdown_agent" 1 (c5Parent.task_id ++ "-step-" ++ twoDigit 2)
    { description := "Execute analysis based on plan"
      agent_type := "terminal", estimated_minutes := some 8 } false

/-- C5 witness: the theorem applied to a concrete two-step reachable store
containing a blocked subtask with an uncompleted dependency. -/
theorem C5_witness :
    c5Blocked ∈ c5Store ∧ c5Blocked.dependencies ≠ [] ∧
    depsAllCompleted c5Store c5Blocked = false ∧
    (c5Blocked.status ≠ .available ∧ c5Blocked.status ≠ .claimed ∧
     c5Blocked.status ≠ .in_progress ∧ c5Blocked.status ≠ .completed) := by
  have hreach : Reach [] c5Store :=
    Reach.step
      (Reach.step (Reach.refl [])
        (AgentStep.interface_create [] scenarioDescription "auto" 3 0))
      (AgentStep.breakdown [c5Parent] "task_breakdown_agent" 1 c5Parent (by decide))
  refine ⟨by decide, by decide, by decide, ?_⟩
  exact C5_theorem c5Store hreach c5Blocked (by decide) (by decide) (by decide)

/-! C2: no agent operation re-evaluates dependencies.  The concrete store
below holds a completed task `p-step-01` and a task `p-step-02` blocked on
it; we show no agent step ever makes `p-step-02` available. -/

/-- The completed dependency of the C2 scenario. -/
def c2Dep : TaskRecord :=
  { task_id := "p-step-01", agent_type := "terminal", status := .completed }

/-- The task blocked on `p-step-01` in the C2 scenario. -/
def c2Blocked : TaskRecord :=
  { task_id := "p-step-02", agent_type := "terminal", status := .blocked,
    dependencies := ["p-step-01"] }

/-- The C2 scenario store. -/
def c2Store : Store := [c2Dep, c2Blocked]

theorem interface_task_id_ne (d : String) (now : Nat) :
    interface_task_id d now ≠ "p-step-02" := by
  refine ne_of_char_mem (c := 'k') ?_ (by decide)
  exact char_mem_append_left "task-" _ (by decide)

theorem first_sub_id_ne (tid mid : String) :
    tid ++ mid ++ twoDigit 1 ≠ "p-step-02" := by
  refine ne_of_char_mem (c := '1') ?_ (by decide)
  exact char_mem_append_right (tid ++ mid) (twoDigit 1) (by decide)

theorem alt_id_ne (tid : String) (n : Nat) :
    tid ++ "-alt-" ++ toString n ≠ "p-step-02" := by
  refine ne_of_char_mem (c := 'a') ?_ (by decide)
  exact char_mem_append_left (tid ++ "-alt-") (toString n)
    (char_mem_append_right tid "-alt-" (by decide))

/-- Invariant: the record at id `p-step-02`, if present, is not
`available`. -/
def NoAvail02 (s : Store) : Prop :=
  ∀ r ∈ s, r.task_id = "p-step-02" → r.status ≠ .available

theorem noAvail_writeTask {s : Store} {r : TaskRecord} (h : NoAvail02 s)
    (hr : r.task_id = "p-step-02" → r.status ≠ .available) :
    NoAvail02 (writeTask s r) := by
  intro r' h' hid
  rcases mem_writeTask h' with h1 | h1
  · subst h1; exact hr hid
  · exact h r' h1 hid

theorem noAvail_foldl {l : List TaskRecord} {s : Store} (h : NoAvail02 s)
    (hl : ∀ r ∈ l, r.task_id = "p-step-02" → r.status ≠ .available) :
    NoAvail02 (l.foldl writeTask s) := by
  intro r' h' hid
  rcases mem_foldl_writeTask h' with h1 | h1
  · exact h r' h1 hid
  · exact hl r' h1 hid

theorem create_subtask_noAvail (a : String) (now : Nat) (tid : String)
    {i : Nat} (step : StepDef) :
    (create_subtask a now (tid ++ "-step-" ++ twoDigit (i + 1)) step
        (i == 0)).task_id = "p-step-02" →
      (create_subtask a now (tid ++ "-step-" ++ twoDigit (i + 1)) step
        (i == 0)).status ≠ .available := by
  intro hid
  cases hi : (i == 0) with
  | true =>
    have : i = 0 := by simpa using hi
    subst this
    exact absurd hid (first_sub_id_ne tid "-step-")
  | false =>
    intro hcontra
    simp [create_subtask, hi] at hcontra

theorem create_execution_subtask_noAvail (a : String) (now : Nat) (tid : String)
    {i : Nat} (step : StepDef) :
    (create_execution_subtask a now (tid ++ "-detail-" ++ twoDigit (i + 1)) step
        (i == 0)).task_id = "p-step-02" →
      (create_execution_subtask a now (tid ++ "-detail-" ++ twoDigit (i + 1)) step
        (i == 0)).status ≠ .available := by
  intro hid
  cases hi : (i == 0) with
  | true =>
    have : i = 0 := by simpa using hi
    subst this
    exact absurd hid (first_sub_id_ne tid "-detail-")
  | false =>
    intro hcontra
    simp [create_execution_subtask, hi] at hcontra

theorem agentStep_noAvail {s s' : Store} (hstep : AgentStep s s')
    (h : NoAvail02 s) : NoAvail02 s' := by
  cases hstep with
  | interface_create d at_ pr now =>
    refine noAvail_writeTask h ?_
    intro hid
    exact absurd hid (interface_task_id_ne d now)
  | breakdown a now task hfound =>
    refine noAvail_writeTask (noAvail_foldl (noAvail_writeTask h ?_) ?_) ?_
    · intro _ hcontra; cases hcontra
    · intro r hr
      rcases mem_breakdown_subtasks hr with ⟨i, step, hi, rfl⟩
      exact create_subtask_noAvail a now task.task_id step
    · intro _ hcontra; cases hcontra
  | terminal a err now success task hfound =>
    unfold terminal_body
    split
    · refine noAvail_writeTask (noAvail_writeTask h ?_) ?_ <;>
        (intro _ hcontra; cases hcontra)
    · refine noAvail_writeTask (noAvail_writeTask h ?_) ?_ <;>
        (intro _ hcontra; cases hcontra)
  | file_ops a now success task hfound =>
    refine noAvail_writeTask (noAvail_writeTask h ?_) ?_
    · intro _ hcontra; cases hcontra
    · intro _
      cases success <;> (intro hcontra; simp [file_ops_finish] at hcontra)
  | planning a now task hfound =>
    have hsub : NoAvail02 ((planning_subtasks a now task.description
        task.task_id).foldl writeTask (writeTask s (claim_task a now task))) := by
      refine noAvail_foldl (noAvail_writeTask h ?_) ?_
      · intro _ hcontra; cases hcontra
      · intro r hr
        rcases mem_planning_subtasks hr with ⟨i, step, hi, rfl⟩
        exact create_execution_subtask_noAvail a now task.task_id step
    unfold meta_planning_body
    dsimp only
    cases hcur : lookupTask ((planning_subtasks a now task.description
        task.task_id).foldl writeTask (writeTask s (claim_task a now task)))
        task.task_id with
    | none => exact hsub
    | some cur =>
      refine noAvail_writeTask hsub ?_
      intro _ hcontra
      cases hcontra
  | stuck a fc now k task hfound =>
    refine noAvail_writeTask h ?_
    intro hid
    exact absurd hid (alt_id_ne task.task_id (k + 1))

theorem reach_noAvail {s0 s : Store} (h : Reach s0 s) (h0 : NoAvail02 s0) :
    NoAvail02 s := by
  induction h with
  | refl => exact h0
  | step h1 h2 ih => exact agentStep_noAvail h2 ih

/-- C2, counterexample: `p-step-02` is blocked with its only listed
dependency completed, yet an agent scan pass (here: an interface-agent step;
the same holds for every other agent step, see the amended theorem) does
not transition it to `available` — there is no dependency re-evaluation. -/
theorem C2_counterexample :
    depsAllCompleted c2Store c2Blocked = true ∧
    c2Blocked.status = .blocked ∧
    ¬ (∀ s', AgentStep c2Store s' →
        ∀ r ∈ s', r.task_id = "p-step-02" → r.status = .available) := by
  refine ⟨by decide, by decide, ?_⟩
  intro hall
  have hstep := AgentStep.interface_create c2Store "new work" "auto" 3 0
  have := hall _ hstep c2Blocked (by decide) (by decide)
  exact absurd this (by decide)

/-- C2 (amended): completing a task triggers no dependency re-evaluation:
no agent scan ever transitions a blocked task to `available`.  From the
concrete store in which `p-step-02` is blocked and all its listed
dependencies are completed, in every store reachable by any sequence of
agent operations, the record with id `p-step-02` is never `available` — it
stays blocked forever (scans only select tasks already
`available`/`not_started`). -/
theorem C2_theorem (s : Store) (h : Reach c2Store s) :
    depsAllCompleted c2Store c2Blocked = true ∧
    c2Blocked.status = .blocked ∧
    ∀ r ∈ s, r.task_id = "p-step-02" → r.status ≠ .available := by
  refine ⟨by decide, by decide, ?_⟩
  refine reach_noAvail h ?_
  intro r hr _
  rcases List.mem_cons.mp hr with rfl | hr2
  · decide
  · rcases List.mem_cons.mp hr2 with rfl | h3
    · decide
    · cases h3

/-- C2 witness: the amended theorem evaluated at the scenario store itself. -/
theorem C2_witness :
    depsAllCompleted c2Store c2Blocked = true ∧
    c2Blocked.status = .blocked ∧
    (c2Blocked ∈ c2Store ∧ c2Blocked.task_id = "p-step-02" ∧
      c2Blocked.status ≠ .available) := by
  have h := C2_theorem c2Store (Reach.refl c2Store)
  exact ⟨h.1, h.2.1, by decide, rfl, h.2.2 c2Blocked (by decide) rfl⟩

/-- C10: when the breakdown monitor body successfully decomposes a found
complex task, it writes the parent's record as `completed` (with
`completed_by` and `completed_at` set) in the same pass, while every newly
created child subtask sits in the store unclaimed (`claimed_by = none`,
status `available` or `blocked`) — parent completion does not wait for the
children. -/
theorem C10_theorem (s : Store) (agent_name : String) (now : Nat)
    (task : TaskRecord) (hfound : task ∈ find_complex_tasks s) :
    lookupTask (breakdown_body agent_name now s task) task.task_id
      = some (mark_task_completed agent_name now (claim_task agent_name now task)) ∧
    (mark_task_completed agent_name now (claim_task agent_name now task)).status
      = .completed ∧
    (mark_task_completed agent_name now
      (claim_task agent_name now task)).completed_by = some agent_name ∧
    (mark_task_completed agent_name now
      (claim_task agent_name now task)).completed_at = some now ∧
    ∀ r ∈ breakdown_subtasks agent_name now task.description task.task_id,
      lookupTask (breakdown_body agent_name now s task) r.task_id = some r ∧
      r.claimed_by = none ∧
      (r.status = .available ∨ r.status = .blocked) := by
  refine ⟨?_, rfl, rfl, rfl, ?_⟩
  · exact lookupTask_writeTask_self _ _
  · intro r hr
    rcases mem_breakdown_subtasks hr with ⟨i, step, hi, rfl⟩
    refine ⟨?_, rfl, ?_⟩
    · show lookupTask (writeTask _ _) _ = _
      rw [lookupTask_writeTask_ne]
      · exact lookupTask_foldl_writeTask_mem
          (breakdown_subtasks_pairwise agent_name now task.description task.task_id)
          hr
      · show task.task_id ++ "-step-" ++ twoDigit (i + 1)
          ≠ (mark_task_completed agent_name now
              (claim_task agent_name now task)).task_id
        intro hcontra
        exact ne_append_append task.task_id "-step-" (twoDigit (i + 1))
          (by decide) hcontra.symm
    · cases hi0 : (i == 0) with
      | true => exact Or.inl (by simp [create_subtask, hi0])
      | false => exact Or.inr (by simp [create_subtask, hi0])

/-- The complex parent task of the C10 witness. -/
def c10Parent : TaskRecord :=
  { task_id := "p", description := scenarioDescription, agent_type := "auto",
    status := .available }

/-- The second (blocked, unclaimed) child of the C10 witness decomposition. -/
def c10Child : TaskRecord :=
  create_subtask "task_breakdown_agent" 7 "p-step-02"
    { description := "Execute analysis based on plan"
      agent_type := "terminal", estimated_minutes := some 8 } false

/-- C10 witness: the theorem evaluated on a singleton store holding the
scenario-A parent, checking the parent's completion write and the second
child's unclaimed record. -/
theorem C10_witness :
    c10Parent ∈ find_complex_tasks [c10Parent] ∧
    lookupTask (breakdown_body "task_breakdown_agent" 7 [c10Parent] c10Parent)
        c10Parent.task_id
      = some (mark_task_completed "task_breakdown_agent" 7
          (claim_task "task_breakdown_agent" 7 c10Parent)) ∧
    (mark_task_completed "task_breakdown_agent" 7
      (claim_task "task_breakdown_agent" 7 c10Parent)).status = .completed ∧
    (mark_task_completed "task_breakdown_agent" 7
      (claim_task "task_breakdown_agent" 7 c10Parent)).completed_by
      = some "task_breakdown_agent" ∧
    (mark_task_completed "task_breakdown_agent" 7
      (claim_task "task_breakdown_agent" 7 c10Parent)).completed_at = some 7 ∧
    (lookupTask (breakdown_body "task_breakdown_agent" 7 [c10Parent] c10Parent)
        c10Child.task_id = some c10Child ∧
      c10Child.claimed_by = none ∧
      (c10Child.status = .available ∨ c10Child.status = .blocked)) := by
  have h := C10_theorem [c10Parent] "task_breakdown_agent" 7 c10Parent (by decide)
  exact ⟨by decide, h.1, h.2.1, h.2.2.1, h.2.2.2.1,
    h.2.2.2.2 c10Child (by decide)⟩

/-- C9 witness: the amended claim evaluated on the concrete directory list
of the counterexample. -/
theorem C9_witness :
    (∀ d ∈ [({ dir_id := "g1", record := some c9Good1, log := [] } : TaskDir)],
      d.record.isSome) ∧
    (({ dir_id := "bad", record := none, log := [] } : TaskDir)).record = none ∧
    (list_tasks none
        ([{ dir_id := "g1", record := some c9Good1, log := [] }] ++
          { dir_id := "bad", record := none, log := [] } ::
            [{ dir_id := "g2", record := some c9Good2, log := [] }])
      = .error "ParseError" ∧
    agent_scan terminal_task_pred
        ([{ dir_id := "g1", record := some c9Good1, log := [] }] ++
          { dir_id := "bad", record := none, log := [] } ::
            [{ dir_id := "g2", record := some c9Good2, log := [] }])
      = agent_scan terminal_task_pred
          [{ dir_id := "g1", record := some c9Good1, log := [] }]) :=
  ⟨by decide, rfl,
   C9_theorem none terminal_task_pred
     [{ dir_id := "g1", record := some c9Good1, log := [] }]
     [{ dir_id := "g2", record := some c9Good2, log := [] }]
     { dir_id := "bad", record := none, log := [] }
     (by decide) rfl⟩
